import Mathlib

/-!
Shallow embedding of the job-execution and utility code of the `vimseo`
repository, together with theorems settling the specification claims about it.

The embedded Python sources are:
* `src/vimseo/core/components/external_software_component.py`
  (`ExternalSoftwareComponent._run`, `_is_successful_execution`,
  `_check_subprocess_completion`);
* `src/vimseo/core/components/run/run_processor.py` (`RunProcessor._run`,
  `RunProcessor.post_run`);
* `src/vimseo/utilities/fields.py` (`extract_line_y`, field-selection slice);
* `src/vimseo/tools/validation_case/validation_case_result.py`
  (`ValidationCaseResult.get_common_values`).

Stateful Python code is embedded as explicit state passing: a method that can
mutate object state returns the post-state of the objects it can reach next to
its `Except` result.  Python exceptions are the `Except.error` branch.
-/

namespace Vimseo

/-- The Python exceptions the embedded code can raise.

`calledProcessError` mirrors `subprocess.CalledProcessError(returncode, cmd,
stderr=subprocess.STDOUT)` as raised in `_check_subprocess_completion`: it
carries the integer return code, the command as a list of words, and the flag
that `stderr` was set to `subprocess.STDOUT`.  `typeError` mirrors the
`TypeError` Python raises on a call with the wrong number of arguments, and
`indexError` the `IndexError` of an out-of-range subscript. -/
inductive PyError where
  | calledProcessError (returncode : Int) (cmd : List String) (stderrIsStdout : Bool)
  | typeError (msg : String)
  | indexError
deriving Repr, DecidableEq

/-- Python's `str.split()` with no argument: split on runs of whitespace and
drop empty pieces (computed over the character list so that it evaluates by
kernel reduction). -/
def pySplit (s : String) : List String :=
  ((s.toList.splitOnP Char.isWhitespace).filter (fun w => w ≠ [])).map
    (fun w => String.mk w)

/-- Modelled from the spec: `BaseJobExecutor` is not under `src/` (only its
callers are).  Per the spec, a job carries "a named working directory" and "a
command-line string (already parameter-substituted)", and executing the job
reports "an integer error code".  The object state is the working directory
and the command line; `command_line` is the string the `command_line` property
of the executor returns. -/
structure BaseJobExecutor where
  job_directory : String
  command_line : String
deriving Repr, DecidableEq

/-- Modelled from the spec: `BaseJobExecutor._set_job_options` is not under
`src/`.  `ExternalSoftwareComponent._run` calls it with the component's job
directory; it records the job directory in the executor's options. -/
def BaseJobExecutor.set_job_options (ex : BaseJobExecutor) (jobDir : String) :
    BaseJobExecutor :=
  { ex with job_directory := jobDir }

/-- The object state of an `ExternalSoftwareComponent`.

* `check_subprocess` is the `_check_subprocess` attribute.
* `attached_files` is the `_attached_files` attribute.
* `job_executor` is the *reference* held in the `_job_executor` attribute
  (an object identity; the referenced executor's own state is a
  `BaseJobExecutor` value passed separately, matching Python's heap).
* `job_directory` is the component's job directory (a property of the
  `BaseComponent` base class, which is not under `src/`; per the spec a job
  has "a named working directory").
* `is_successful_execution` is the outcome of the completion predicate
  `_is_successful_execution()` for the current run: the implementation in
  `ExternalSoftwareComponent` returns `True` unconditionally and subclasses
  override it with a real completion check, so the outcome is a field of the
  model and the claims quantify over it. -/
structure ExternalSoftwareComponent where
  check_subprocess : Bool
  attached_files : List String
  job_executor : Nat
  job_directory : String
  is_successful_execution : Bool
deriving Repr, DecidableEq

/-- The output data dictionary `_run` returns: the only entry written by the
embedded code is `output_data[MetaDataNames.error_code] = atleast_1d(error_run)`,
a one-element array holding the error code. -/
structure OutputData where
  error_code : List Int
deriving Repr, DecidableEq

/-- The error code `_check_subprocess_completion` classifies from the
subprocess error code and the completion predicate: the first statement of the
function body,
`if error_subprocess == 0: error_subprocess = int(not self._is_successful_execution())`. -/
def classifiedErrorCode (self : ExternalSoftwareComponent)
    (error_subprocess : Int) : Int :=
  if error_subprocess == 0 then
    (if self.is_successful_execution then 0 else 1)
  else error_subprocess

/-- `ExternalSoftwareComponent._check_subprocess_completion(error_subprocess,
check, cmd)`: reclassify a zero subprocess code through the completion
predicate; on a nonzero result, raise `CalledProcessError(returncode, cmd,
stderr=subprocess.STDOUT)` when `check` is true, otherwise log a warning and
return the nonzero code; on a zero result return it.  The `LOGGER` calls have
no further effect and are not modelled. -/
def ExternalSoftwareComponent.check_subprocess_completion
    (self : ExternalSoftwareComponent) (error_subprocess : Int) (check : Bool)
    (cmd : List String) : Except PyError Int :=
  let error_subprocess := classifiedErrorCode self error_subprocess
  if error_subprocess ≠ 0 then
    if check then
      Except.error (PyError.calledProcessError error_subprocess cmd true)
    else
      Except.ok error_subprocess
  else
    Except.ok error_subprocess

/-- `ExternalSoftwareComponent._run(input_data)`.

`exit_code` is the integer the call
`self._job_executor.execute(check_subprocess=self._check_subprocess)` returns;
`BaseJobExecutor.execute` is not under `src/` and is modelled from the spec as
reporting the external process's exit status as "an integer error code"
(0 = success, nonzero = failure) without raising.

The body follows the source line by line: `pre_run` and `write_input_files`
have empty bodies in this class; `_set_job_options(self.job_directory)` is
applied to the executor; the result of `execute` is assigned to `error_run`
and then immediately overwritten by the source's literal `error_run = 0`
statements, so the two `if error_run:` warning blocks are unreachable and the
completion check always receives 0; `post_run` has an empty body; finally
`output_data["error_code"] = atleast_1d(error_run)` is returned.

The returned triple is the post-state of the component, the post-state of the
executor object referenced by `_job_executor`, and the `Except` outcome. -/
def ExternalSoftwareComponent.run (self : ExternalSoftwareComponent)
    (executor : BaseJobExecutor) (exit_code : Int) :
    ExternalSoftwareComponent × BaseJobExecutor × Except PyError OutputData :=
  let executor := executor.set_job_options self.job_directory
  let error_run := exit_code
  let error_run : Int := 0
  let error_run : Int := 0
  match self.check_subprocess_completion error_run self.check_subprocess
      (pySplit executor.command_line) with
  | Except.error e => (self, executor, Except.error e)
  | Except.ok error_run =>
      (self, executor, Except.ok { error_code := [error_run] })

/-- The number of positional parameters of `RunProcessor.post_run`, counting
`self`: the source defines `def post_run(self, input_data)`. -/
def RunProcessor.post_run_params : Nat := 2

/-- A Python positional call of a function taking `params` positional
parameters with `args` positional arguments: raises `TypeError` on a
mismatch. -/
def pyCall (name : String) (params args : Nat) : Except PyError Unit :=
  if args = params then Except.ok ()
  else
    Except.error (PyError.typeError
      (s!"{name}() takes {params} positional arguments but {args} were given"))

/-- `RunProcessor._run(input_data)`.

A `RunProcessor` inherits the attributes of `ExternalSoftwareComponent`
(its extra `subroutine_list` attribute is untouched by `_run` and omitted);
`exit_code` is the integer returned by the
`self._job_executor.execute(check_subprocess=...)` call, modelled as for
`ExternalSoftwareComponent.run`.

The body follows the source: `pre_run` has an empty body; the executor's job
options are set; the `if error_run:` block after `execute` only logs; then
the literal `error_run = 0` discards the exit code before the completion
check; `output_data["error_code"] = atleast_1d(error_run)` is written; and
then `self.post_run(input_data, output_data)` is called with the instance and
two data arguments — 3 positional arguments in Python's count — while
`RunProcessor.post_run(self, input_data)` takes 2, so on an instance that
does not override `post_run` this call raises a `TypeError` and the
`return output_data` line is never reached. -/
def RunProcessor.run (self : ExternalSoftwareComponent)
    (executor : BaseJobExecutor) (exit_code : Int) :
    ExternalSoftwareComponent × BaseJobExecutor × Except PyError OutputData :=
  let executor := executor.set_job_options self.job_directory
  let error_run := exit_code
  let error_run : Int := 0
  match self.check_subprocess_completion error_run self.check_subprocess
      (pySplit executor.command_line) with
  | Except.error e => (self, executor, Except.error e)
  | Except.ok error_run =>
      let output_data : OutputData := { error_code := [error_run] }
      match pyCall "post_run" RunProcessor.post_run_params 3 with
      | Except.error e => (self, executor, Except.error e)
      | Except.ok _ => (self, executor, Except.ok output_data)

/-- The field-selection slice of `extract_line_y(vtu_file, ..., fields, ...)`
in `src/vimseo/utilities/fields.py`, for a non-`None` `fields` argument.

`available` is `list(line.point_data.keys())`, the fields of the sampled
line; `requested` is the caller's `fields` list.  The source runs

```
fields = [f for f in fields if f in available]
missing = [f for f in fields if f not in available]
...
result = \x7b"y": y_coords\x7d
for field in fields: result[field] = data
```

so the function returns the `missing` list (which drives the warning branch)
and the key list of the returned `result` dict.  Python dict keys are in
insertion order and re-assigning an existing key keeps its position, which the
fold models. -/
def extract_line_y_selection (requested available : List String) :
    List String × List String :=
  let fields := requested.filter (fun f => decide (f ∈ available))
  let missing := fields.filter (fun f => decide (f ∉ available))
  let resultKeys := fields.foldl
    (fun ks f => if f ∈ ks then ks else ks ++ [f]) ["y"]
  (missing, resultKeys)

/-- `ValidationCaseResult.get_common_values(data_list)` in
`src/vimseo/tools/validation_case/validation_case_result.py`:

```
common_values = set(data_list[0])
for data in data_list[1:]:
    common_values.intersection_update(data)
return sorted(common_values)
```

On an empty sequence the subscript `data_list[0]` raises `IndexError`.
`set(...)` is modelled by `List.dedup`, `intersection_update` by filtering on
membership, and Python's `sorted` by `List.insertionSort` (any sort agrees on
a duplicate-free set). -/
def get_common_values {α : Type} [LinearOrder α] [DecidableEq α]
    (data_list : List (List α)) : Except PyError (List α) :=
  match data_list with
  | [] => Except.error PyError.indexError
  | d :: rest =>
      let common_values := rest.foldl
        (fun s data => s.filter (fun a => decide (a ∈ data))) d.dedup
      Except.ok (common_values.insertionSort (fun a b => a ≤ b))

/-! ### Concrete instances used to instantiate the theorems -/

/-- A component whose completion predicate holds and whose
`check_subprocess` flag is off, as in the spec's `"sleep 0.05"` scenario. -/
def sleepComponent : ExternalSoftwareComponent :=
  { check_subprocess := false, attached_files := [], job_executor := 0,
    job_directory := "run_dir", is_successful_execution := true }

/-- An executor whose command line is the spec scenario's `"sleep 0.05"`. -/
def sleepExecutor : BaseJobExecutor :=
  { job_directory := "", command_line := "sleep 0.05" }

/-- `sleepComponent` with `check_subprocess` enabled. -/
def checkedComponent : ExternalSoftwareComponent :=
  { sleepComponent with check_subprocess := true }

/-- A component whose completion predicate fails, with `check_subprocess`
enabled, working in directory `dir_a`. -/
def failingComponentA : ExternalSoftwareComponent :=
  { check_subprocess := true, attached_files := [], job_executor := 0,
    job_directory := "dir_a", is_successful_execution := false }

/-- `failingComponentA` but working in a different directory `dir_b`. -/
def failingComponentB : ExternalSoftwareComponent :=
  { failingComponentA with job_directory := "dir_b" }

/-- An executor running an external solver command. -/
def solverExecutor : BaseJobExecutor :=
  { job_directory := "", command_line := "run_solver case.cfg" }

/-! ### Theorems -/

/-- C1: for every execution of `ExternalSoftwareComponent._run` in which the
external process exits with code 0 and the completion predicate
`_is_successful_execution` is satisfied, the run returns error code 0: the
`error_code` entry of the returned output data is the one-element array `[0]`
and no error is raised. -/
theorem c1_run_success_returns_zero (self : ExternalSoftwareComponent)
    (executor : BaseJobExecutor) (h : self.is_successful_execution = true) :
    self.run executor 0 =
      (self, executor.set_job_options self.job_directory,
        Except.ok { error_code := [0] }) := by
  simp [ExternalSoftwareComponent.run,
    ExternalSoftwareComponent.check_subprocess_completion, classifiedErrorCode, h]

/-- Witness for C1, at the spec scenario: command `"sleep 0.05"`, completion
predicate satisfied, `check_subprocess = False`. -/
theorem c1_witness_sleep_scenario :
    sleepComponent.is_successful_execution = true ∧
    sleepComponent.run sleepExecutor 0 =
      (sleepComponent, sleepExecutor.set_job_options sleepComponent.job_directory,
        Except.ok { error_code := [0] }) :=
  ⟨rfl, c1_run_success_returns_zero sleepComponent sleepExecutor rfl⟩

/-- C2 (code bug): the claim says a process exiting nonzero with
`check_subprocess=False` makes the run return that same nonzero code.  The
source instead discards the executor's result (`error_run = 0` in `_run`), so
the returned `error_code` is `[0]` for *every* exit code — here evaluated at
the failing input: exit code 2, `check_subprocess=False`, completion
predicate satisfied, where the claim demands `[2]`. -/
theorem c2_run_discards_exit_code :
    ∀ exit_code : Int, (sleepComponent.run sleepExecutor exit_code).2.2 =
      Except.ok { error_code := [0] } :=
  fun _ => rfl

/-- C3 (code bug): the claim says a process exiting 1 with
`check_subprocess=True` makes the run raise an error embedding the command.
Because `_run` overwrites the executor's exit code with 0 and the completion
predicate holds, the run returns normally with `error_code = [0]` instead of
raising. -/
theorem c3_check_true_nonzero_exit_not_raised :
    (checkedComponent.run sleepExecutor 1).2.2 =
      Except.ok { error_code := [0] } :=
  rfl

/-- C4: `_check_subprocess_completion` raises exactly when the check flag is
true and the classified error code is nonzero, and the raised error carries
the command passed to it; when the check flag is false it never raises and
returns the classified code (so a nonzero classification is propagated as
data); when the check flag is true a normal return forces the classified
code — the returned result — to be 0. -/
theorem c4_check_subprocess_completion_spec (self : ExternalSoftwareComponent)
    (error_subprocess : Int) (check : Bool) (cmd : List String) :
    self.check_subprocess_completion error_subprocess check cmd =
      if check = true ∧ classifiedErrorCode self error_subprocess ≠ 0 then
        Except.error (PyError.calledProcessError
          (classifiedErrorCode self error_subprocess) cmd true)
      else
        Except.ok (classifiedErrorCode self error_subprocess) := by
  unfold ExternalSoftwareComponent.check_subprocess_completion
  by_cases h : classifiedErrorCode self error_subprocess = 0 <;>
    cases check <;> simp [h]

/-- C5 counterexample: the claim says an escalated error identifies both the
command line and the working directory.  Two runs that differ only in the
component's working directory (`dir_a` vs `dir_b`) raise the *same* error
value, which therefore cannot identify the working directory; the
`CalledProcessError` constructed in `_check_subprocess_completion` carries
only the return code, the command and the `stderr` marker. -/
theorem c5_counterexample_error_lacks_directory :
    failingComponentA.job_directory ≠ failingComponentB.job_directory ∧
    (failingComponentA.run solverExecutor 0).2.2 =
      Except.error (PyError.calledProcessError 1 ["run_solver", "case.cfg"] true) ∧
    (failingComponentB.run solverExecutor 0).2.2 =
      Except.error (PyError.calledProcessError 1 ["run_solver", "case.cfg"] true) :=
  ⟨by decide, rfl, rfl⟩

/-- C5 (amended): whenever a failure is escalated to a raised error, the
raised error identifies the command line — it is the `CalledProcessError`
whose `cmd` is the split command line of the executor — but it does not
include the working directory. -/
theorem c5_raised_error_carries_command_line (self : ExternalSoftwareComponent)
    (executor : BaseJobExecutor) (exit_code : Int) (e : PyError)
    (h : (self.run executor exit_code).2.2 = Except.error e) :
    e = PyError.calledProcessError 1 (pySplit executor.command_line) true := by
  cases hpred : self.is_successful_execution <;>
    cases hchk : self.check_subprocess <;>
    simp [ExternalSoftwareComponent.run,
      ExternalSoftwareComponent.check_subprocess_completion, classifiedErrorCode,
      BaseJobExecutor.set_job_options, hpred, hchk] at h
  exact h.symm

/-- Witness for C5 (amended), at a failing run of the solver command. -/
theorem c5_witness_solver_command :
    (failingComponentA.run solverExecutor 0).2.2 =
      Except.error (PyError.calledProcessError 1 ["run_solver", "case.cfg"] true) ∧
    PyError.calledProcessError 1 ["run_solver", "case.cfg"] true =
      PyError.calledProcessError 1 (pySplit solverExecutor.command_line) true :=
  ⟨rfl, c5_raised_error_carries_command_line failingComponentA solverExecutor 0
    (PyError.calledProcessError 1 ["run_solver", "case.cfg"] true) rfl⟩

/-- C6 (code bug): the claim says the run is classified as an error if the
completion predicate fails *or the process exited non-zero*.  Evaluated at
the failing input — exit code 1, completion predicate satisfied — the run is
classified 0, because `_run` overwrites the executor's exit code with 0 and
only the predicate outcome reaches `_check_subprocess_completion`. -/
theorem c6_nonzero_exit_classified_zero :
    (sleepComponent.run sleepExecutor 1).2.2 =
      Except.ok { error_code := [0] } :=
  rfl

/-- C7: a job run has no side effect on the component's own state: `_run`
(and the `_check_subprocess_completion` call inside it, whose embedding is
pure because the source assigns no attribute) returns the component with
every field — `_attached_files`, `_check_subprocess`, the `_job_executor`
reference, the job directory, the predicate — unchanged, both when the run
returns normally and when it raises.  (The executor *object*'s own options
are updated by `_set_job_options`, but the component's reference to it is
untouched.) -/
theorem c7_run_preserves_component_state (self : ExternalSoftwareComponent)
    (executor : BaseJobExecutor) (exit_code : Int) :
    (self.run executor exit_code).1 = self := by
  cases h : self.check_subprocess_completion 0 self.check_subprocess
      (pySplit (executor.set_job_options self.job_directory).command_line) <;>
    simp [ExternalSoftwareComponent.run, h]

/-- C8: `RunProcessor._run` on an instance that does not override `post_run`
(nor the base completion predicate, which returns `True`) never returns
normally: after the error code has been computed and stored in the output
data, the call `self.post_run(input_data, output_data)` passes 3 positional
arguments to the 2-parameter `RunProcessor.post_run(self, input_data)` and
raises a `TypeError`, so `return output_data` is never reached; and for every
component configuration whatsoever, the run never produces a normal result. -/
theorem c8_runprocessor_run_never_returns_normally
    (self : ExternalSoftwareComponent) (executor : BaseJobExecutor)
    (exit_code : Int) :
    (RunProcessor.run self executor exit_code).2.2.isOk = false ∧
    (self.is_successful_execution = true →
      (RunProcessor.run self executor exit_code).2.2 =
        Except.error (PyError.typeError
          "post_run() takes 2 positional arguments but 3 were given")) := by
  constructor
  · cases hpred : self.is_successful_execution <;>
      cases hchk : self.check_subprocess <;>
      simp [RunProcessor.run,
        ExternalSoftwareComponent.check_subprocess_completion, classifiedErrorCode,
        pyCall, RunProcessor.post_run_params, hpred, hchk, Except.isOk,
        Except.toBool]
  · intro hpred
    simp [RunProcessor.run,
      ExternalSoftwareComponent.check_subprocess_completion, classifiedErrorCode,
      pyCall, RunProcessor.post_run_params, hpred]
    rfl

/-- Witness for C8: a plain `RunProcessor` (predicate inherited, returning
`True`) raises the arity `TypeError` and never returns normally. -/
theorem c8_witness_plain_runprocessor :
    sleepComponent.is_successful_execution = true ∧
    (RunProcessor.run sleepComponent sleepExecutor 0).2.2.isOk = false ∧
    (RunProcessor.run sleepComponent sleepExecutor 0).2.2 =
      Except.error (PyError.typeError
        "post_run() takes 2 positional arguments but 3 were given") :=
  ⟨rfl, (c8_runprocessor_run_never_returns_normally sleepComponent sleepExecutor 0).1,
    (c8_runprocessor_run_never_returns_normally sleepComponent sleepExecutor 0).2 rfl⟩

/-- Filtering a list down to the members of `available` and then keeping the
non-members of `available` leaves nothing: the source of `extract_line_y`
computes `missing` from the already-filtered `fields` list. -/
theorem filterMem_filterNotMem_eq_nil (available l : List String) :
    ((l.filter fun f => decide (f ∈ available)).filter
      fun f => decide (f ∉ available)) = [] := by
  induction l with
  | nil => rfl
  | cons x xs ih => by_cases hx : x ∈ available <;> simp [List.filter_cons, hx, ih]

/-- Folding Python-dict insertion over a duplicate-free list of keys disjoint
from the accumulator appends the keys in order. -/
theorem foldl_dict_insert (l acc : List String) (hnd : l.Nodup)
    (hdisj : ∀ x ∈ l, x ∉ acc) :
    l.foldl (fun ks f => if f ∈ ks then ks else ks ++ [f]) acc = acc ++ l := by
  induction l generalizing acc with
  | nil => simp
  | cons x xs ih =>
      have hx : x ∉ acc := hdisj x (List.mem_cons_self x xs)
      rw [List.foldl_cons, if_neg hx,
        ih (acc ++ [x]) (List.nodup_cons.mp hnd).2 ?_]
      · simp
      · intro y hy
        rw [List.mem_append]
        rintro (hya | hyx)
        · exact hdisj y (List.mem_cons_of_mem _ hy) hya
        · simp at hyx
          exact (List.nodup_cons.mp hnd).1 (hyx ▸ hy)

/-- C9: in `extract_line_y` with a non-`None` `fields` list, the returned
dict's keys are exactly `'y'` followed by the requested field names present in
the sampled line's point data, in request order, and the missing-field warning
branch is unreachable: the `missing` list is always empty because it is
computed from the already-filtered `fields` list. -/
theorem c9_extract_line_y_selection (requested available : List String)
    (h1 : requested.Nodup) (h2 : "y" ∉ requested) :
    extract_line_y_selection requested available =
      ([], "y" :: requested.filter fun f => decide (f ∈ available)) := by
  unfold extract_line_y_selection
  have hm := filterMem_filterNotMem_eq_nil available requested
  have hdisj : ∀ x ∈ requested.filter (fun f => decide (f ∈ available)),
      x ∉ (["y"] : List String) := by
    intro x hx hmem
    simp at hmem
    exact h2 (hmem ▸ List.mem_of_mem_filter hx)
  have hk := foldl_dict_insert (requested.filter fun f => decide (f ∈ available))
    ["y"] (h1.filter _) hdisj
  simp [hm, hk]

/-- Witness for C9: requested fields `["u", "q"]` against available point
data `["u", "p"]` yield no missing-field warning and the keys `["y", "u"]`. -/
theorem c9_witness_selection :
    (["u", "q"] : List String).Nodup ∧ "y" ∉ (["u", "q"] : List String) ∧
    extract_line_y_selection ["u", "q"] ["u", "p"] = ([], ["y", "u"]) :=
  ⟨by decide, by decide,
    c9_extract_line_y_selection ["u", "q"] ["u", "p"] (by decide) (by decide)⟩

/-- Membership in the fold of `intersection_update` steps: an element survives
exactly when it is in the initial set and in every further list. -/
theorem foldl_filter_mem {α : Type} [DecidableEq α] (rest : List (List α))
    (init : List α) (a : α) :
    (a ∈ rest.foldl (fun s data => s.filter fun x => decide (x ∈ data)) init) ↔
      a ∈ init ∧ ∀ data ∈ rest, a ∈ data := by
  induction rest generalizing init with
  | nil => simp
  | cons d ds ih => simp [ih, List.mem_filter, and_assoc]

/-- The fold of `intersection_update` steps preserves duplicate-freedom. -/
theorem foldl_filter_nodup {α : Type} [DecidableEq α] (rest : List (List α))
    (init : List α) (h : init.Nodup) :
    (rest.foldl (fun s data => s.filter fun x => decide (x ∈ data)) init).Nodup := by
  induction rest generalizing init with
  | nil => exact h
  | cons d ds ih => exact ih _ (h.filter _)

/-- C10: on a non-empty sequence of lists, `get_common_values` returns (as
`Except.ok`) the sorted, duplicate-free list of exactly the values occurring
in every list of the sequence — so the result is insensitive to element order
and to duplicates inside each input list, being determined by memberships
alone; on the empty sequence it raises `IndexError` (from `data_list[0]`). -/
theorem c10_get_common_values {α : Type} [LinearOrder α] [DecidableEq α]
    (data_list : List (List α)) :
    (data_list = [] →
      get_common_values data_list = Except.error PyError.indexError) ∧
    ∀ l, get_common_values data_list = Except.ok l →
      List.Sorted (fun a b => a ≤ b) l ∧ l.Nodup ∧
      ∀ a, a ∈ l ↔ ∀ data ∈ data_list, a ∈ data := by
  constructor
  · intro h
    subst h
    rfl
  · intro l hl
    cases data_list with
    | nil => exact absurd hl (by simp [get_common_values])
    | cons d rest =>
        simp only [get_common_values, Except.ok.injEq] at hl
        subst hl
        refine ⟨List.sorted_insertionSort _ _, ?_, ?_⟩
        · exact (List.perm_insertionSort _ _).nodup_iff.mpr
            (foldl_filter_nodup _ _ (List.nodup_dedup d))
        · intro a
          rw [(List.perm_insertionSort _ _).mem_iff, foldl_filter_mem]
          simp [List.mem_dedup, List.forall_mem_cons]

/-- Witness for C10: the empty sequence raises `IndexError`, and
`[[3, 1, 2, 1], [2, 3, 5]]` yields the sorted deduplicated intersection
`[2, 3]` with the characterizing properties. -/
theorem c10_witness_common_values :
    get_common_values ([] : List (List Int)) = Except.error PyError.indexError ∧
    get_common_values ([[3, 1, 2, 1], [2, 3, 5]] : List (List Int)) =
      Except.ok [2, 3] ∧
    (List.Sorted (fun a b => a ≤ b) ([2, 3] : List Int) ∧
      ([2, 3] : List Int).Nodup ∧
      ∀ a : Int, a ∈ ([2, 3] : List Int) ↔
        ∀ data ∈ ([[3, 1, 2, 1], [2, 3, 5]] : List (List Int)), a ∈ data) :=
  ⟨(c10_get_common_values ([] : List (List Int))).1 rfl, rfl,
    (c10_get_common_values ([[3, 1, 2, 1], [2, 3, 5]] : List (List Int))).2
      [2, 3] rfl⟩

end Vimseo
